import Mathlib

/-!
Verification of the client-side coordination layer of `claude_colab.py`.

The Python module is shallowly embedded: every remote HTTP call is modelled
by passing the call's outcome as an explicit parameter
(`none` = the transport raised an exception that the Python code catches,
`some (status, body)` = a response with that HTTP status and decoded JSON
body).  Local JSON documents are modelled by the inductive `JVal`; Python
dicts are association lists with unique keys, preserving insertion order.
Python truthiness of optional strings (`None` and `""` are falsy) is
modelled by `strTruthy`.  All functions are total, which reflects the
source's catch-all exception handling: a branch that cannot raise in the
model corresponds to code that catches and converts exceptions.
-/

/-- Python `str.upper()`, modelled character-wise (ASCII uppercase); the
names involved are ASCII, where this is exactly Python's behaviour. -/
def pyUpper (s : String) : String := String.mk (s.data.map Char.toUpper)

/-- Truthiness of a Python `Optional[str]`: `None` and `""` are falsy. -/
def strTruthy : Option String → Bool
  | none => false
  | some s => !(s == "")

/-- A single-quote character, used to render Python `repr` of strings. -/
def singleQuote : String := (Char.ofNat 39).toString

/-- Python `repr` of a plain string (no escaping needed for our strings). -/
def pyReprStr (s : String) : String := singleQuote ++ s ++ singleQuote

/-- Python `str`/`repr` of a list of strings, e.g. the blocker list as it
is interpolated into the hard-checkpoint `RuntimeError` message. -/
def pyReprStrList (xs : List String) : String :=
  "[" ++ String.intercalate ", " (xs.map pyReprStr) ++ "]"

/-- `ROLE_HIERARCHY.get(role, 0)`: string role name to integer rank. -/
def roleHierarchyGet (role : String) : Nat :=
  if role == "supervisor" then 4
  else if role == "manager" then 3
  else if role == "worker" then 2
  else if role == "grunt" then 1
  else if role == "bot" then 0
  else 0

/-- `BOT_ROLES.get(name, 'bot')`: uppercase bot name to role string,
unknown names default to `'bot'`. -/
def botRolesGet (name : String) : String :=
  if name == "BLACK" then "supervisor"
  else if name == "INTOLERANT" then "worker"
  else if name == "OLLAMA" then "grunt"
  else if name == "TKINTER" then "bot"
  else "bot"

/-- `can_manage_bot(manager_name, target_name)`: true iff the manager's
rank is strictly greater than the target's. -/
def can_manage_bot (manager_name target_name : String) : Bool :=
  decide (roleHierarchyGet (botRolesGet (pyUpper target_name)) <
          roleHierarchyGet (botRolesGet (pyUpper manager_name)))

/-- Spec-side role enumeration (from the spec wording of section 4.3,
used only to state claim C5 as a refinement). -/
inductive SpecRole where
  | supervisor
  | managerR
  | worker
  | grunt
  | bot
deriving DecidableEq

/-- Spec-side rank under the fixed total order
supervisor > manager > worker > grunt > bot. -/
def specRank : SpecRole → Nat
  | .supervisor => 4
  | .managerR => 3
  | .worker => 2
  | .grunt => 1
  | .bot => 0

/-- Spec-side role lookup: uppercase name in the static table, unknown
names default to the lowest role. -/
def specRoleOf (n : String) : SpecRole :=
  if pyUpper n == "BLACK" then .supervisor
  else if pyUpper n == "INTOLERANT" then .worker
  else if pyUpper n == "OLLAMA" then .grunt
  else if pyUpper n == "TKINTER" then .bot
  else .bot

/-- JSON values, for settings documents.  Objects are association lists
with unique keys in insertion order, like Python dicts. -/
inductive JVal where
  | str : String → JVal
  | num : Int → JVal
  | jbool : Bool → JVal
  | jnull : JVal
  | arr : List JVal → JVal
  | obj : List (String × JVal) → JVal

/-- A JSON object (Python dict), as stored in a settings document. -/
abbrev JObj := List (String × JVal)

/-- Python `d[key]` / `key in d`: first (unique) binding of a key. -/
def objGet : JObj → String → Option JVal
  | [], _ => none
  | (k, v) :: t, key => if k == key then some v else objGet t key

/-- Python `d[key] = v`: replace in place if present, else append. -/
def objSet : JObj → String → JVal → JObj
  | [], key, v => [(key, v)]
  | (k, w) :: t, key, v =>
      if k == key then (key, v) :: t else (k, w) :: objSet t key v

/-- Python `d.update(u)`: shallow dict update, left to right over `u`. -/
def dictUpdate (d : JObj) (u : JObj) : JObj :=
  u.foldl (fun acc kv => objSet acc kv.1 kv.2) d

/-- The merge loop of `set_bot_settings`: for each key of the patch, if
both old and new values are dicts they are shallow-merged, otherwise the
new value replaces the old wholesale. -/
def mergeSettings (existing : JObj) (patch : JObj) : JObj :=
  patch.foldl
    (fun ex kv =>
      match kv.2 with
      | JVal.obj u =>
        match objGet ex kv.1 with
        | some (JVal.obj old) => objSet ex kv.1 (JVal.obj (dictUpdate old u))
        | _ => objSet ex kv.1 kv.2
      | _ => objSet ex kv.1 kv.2)
    existing

/-- State of one bot's folder under the base path. -/
inductive BotFolder where
  | noSettings
  | corruptSettings
  | settings : JObj → BotFolder

/-- The local filesystem of bot folders, keyed by the (uppercase) folder
name `bot_name.upper()`; `none` means the folder does not exist. -/
def FsState := String → Option BotFolder

/-- Write one bot folder back to the filesystem. -/
def fsUpdate (fs : FsState) (key : String) (v : BotFolder) : FsState :=
  fun k => if k == key then some v else fs k

/-- `get_bot_settings(bot_name)`: absent folder, absent file or corrupt
JSON all yield `None`, never an exception. -/
def get_bot_settings (fs : FsState) (bot_name : String) : Option JObj :=
  match fs (pyUpper bot_name) with
  | some (BotFolder.settings d) => some d
  | _ => none

/-- `set_bot_settings(bot_name, settings, manager_name)`: the hierarchy
check runs first and rejects without touching the filesystem; a missing
folder or a corrupt existing document (whose load raises, caught by the
`try`) also returns `False` without writing; otherwise the patch is
recursively merged into the existing document and written back. -/
def set_bot_settings (fs : FsState) (bot_name : String) (patch : JObj)
    (manager_name : Option String) : FsState × Bool :=
  if strTruthy manager_name &&
      !(can_manage_bot (manager_name.getD "") bot_name) then (fs, false)
  else
    match fs (pyUpper bot_name) with
    | none => (fs, false)
    | some BotFolder.corruptSettings => (fs, false)
    | some BotFolder.noSettings =>
        (fsUpdate fs (pyUpper bot_name)
          (BotFolder.settings (mergeSettings [] patch)), true)
    | some (BotFolder.settings d) =>
        (fsUpdate fs (pyUpper bot_name)
          (BotFolder.settings (mergeSettings d patch)), true)

/-- Python `rule == v` for an element `v` of the rules array: a string
element equal to `rule` (a string never equals a non-string). -/
def jIsStr (rule : String) : JVal → Bool
  | JVal.str s => s == rule
  | _ => false

/-- `add_bot_rule(bot_name, rule, manager_name)`: read the document (a
failed read yields `{}`), take its `rules` entry (default `[]`), append
`rule` unless already present, and write the patch `{"rules": rules}`
through `set_bot_settings`.  A `rules` entry that is not an array makes
the Python loop operate on a non-list and is not modelled (`none`). -/
def add_bot_rule (fs : FsState) (bot_name : String) (rule : String)
    (manager_name : Option String) : Option (FsState × Bool) :=
  match objGet ((get_bot_settings fs bot_name).getD []) "rules" with
  | some (JVal.arr rs) =>
      some (set_bot_settings fs bot_name
        [("rules", JVal.arr (if rs.any (jIsStr rule) then rs else rs ++ [JVal.str rule]))]
        manager_name)
  | none =>
      some (set_bot_settings fs bot_name [("rules", JVal.arr [JVal.str rule])] manager_name)
  | some _ => none

/-- State of the local keystore file `keystore.json`. -/
inductive KeystoreState where
  | absent
  | corrupt
  | stocked : List (String × String) → KeystoreState

/-- `vend_key(name)`: absent or corrupt store yields `None`; otherwise
look up the uppercase name. -/
def vend_key (ks : KeystoreState) (name : String) : Option String :=
  match ks with
  | KeystoreState.absent => none
  | KeystoreState.corrupt => none
  | KeystoreState.stocked entries => entries.lookup (pyUpper name)

/-- One row of the `validate_api_key` RPC result. -/
structure ValRecord where
  team_id : Option String
  user_id : Option String
  claude_name : Option String
deriving DecidableEq

/-- The mutable fields of the `ClaudeColab` client object. -/
structure SessionState where
  api_key : Option String
  team_id : Option String
  user_id : Option String
  claude_name : Option String
  project_slug : String
  connected : Bool
deriving DecidableEq

/-- `_validate_key`: a transport exception (`none`) is caught and yields
`None`; a 200 response with a non-empty JSON array yields its first row;
any other status or an empty array yields `None`. -/
def validateKey (resp : Option (Nat × List ValRecord)) : Option ValRecord :=
  match resp with
  | none => none
  | some (status, data) => if status == 200 then data.head? else none

/-- The credential-resolution prefix of `connect` (its first block): a
truthy explicit argument wins; otherwise, when a truthy name is given the
identity-scoped environment variable overwrites the stored key; a falsy
result falls back to the generic environment variable, and then (when a
truthy name is given) to the keystore. -/
def resolveApiKey (prior : Option String) (api_key : Option String)
    (name : Option String) (env : String → Option String)
    (ks : KeystoreState) : Option String :=
  if strTruthy api_key then api_key
  else
    let k1 := if strTruthy name
      then env ("CLAUDE_COLAB_KEY_" ++ pyUpper (name.getD ""))
      else prior
    let k2 := if strTruthy k1 then k1 else env "CLAUDE_COLAB_KEY"
    let k3 := if !(strTruthy k2) && strTruthy name
      then vend_key ks (name.getD "")
      else k2
    k3

/-- `connect(api_key, name)`: resolve a credential (storing it in the
session even on failure), fail when it is falsy, otherwise validate it;
on a successful validation populate `team_id`, `user_id`, `claude_name`,
set `connected := true` and return `true`; otherwise return `false`.  A
failed validation does not write to `connected`, so it keeps its prior
value.  The function is total: transport exceptions are the `none`
response already converted by `validateKey`. -/
def connect (s : SessionState) (api_key name : Option String)
    (env : String → Option String) (ks : KeystoreState)
    (resp : Option (Nat × List ValRecord)) : SessionState × Bool :=
  let key := resolveApiKey s.api_key api_key name env ks
  if strTruthy key then
    match validateKey resp with
    | some r =>
        (⟨key, r.team_id, r.user_id, r.claude_name, s.project_slug, true⟩, true)
    | none =>
        (⟨key, s.team_id, s.user_id, s.claude_name, s.project_slug, s.connected⟩, false)
  else
    (⟨key, s.team_id, s.user_id, s.claude_name, s.project_slug, s.connected⟩, false)

/-- A chat message as the Python code reads it from the JSON response:
every field access goes through `dict.get` and may be absent. -/
structure ChatMsg where
  id : Option String
  message : Option String
  project_slug : Option String
deriving DecidableEq

/-- `get_chat(limit)`: the backend delivers the most recent messages
newest-first; a 200 response is reversed to oldest-first, any other
status or a transport exception yields `[]`.  `ensureOk` is the outcome
of `_ensure_connected`. -/
def get_chat (ensureOk : Bool) (resp : Option (Nat × List ChatMsg)) :
    List ChatMsg :=
  if ensureOk then
    match resp with
    | some (status, msgs) => if status == 200 then msgs.reverse else []
    | none => []
  else []

/-- The mention tag `f"@{self.claude_name}"`; a `None` name renders as
the literal string `None`, as Python string interpolation does. -/
def mentionTag (claude_name : Option String) : String :=
  "@" ++ (match claude_name with | some s => s | none => "None")

/-- Whether `needle` is a prefix of `hay` (on character lists). -/
def charsPrefixEq : List Char → List Char → Bool
  | [], _ => true
  | _ :: _, [] => false
  | a :: as, b :: bs => a == b && charsPrefixEq as bs

/-- Whether `needle` occurs as a contiguous run inside `hay`. -/
def charsContainSeq (needle : List Char) : List Char → Bool
  | [] => charsPrefixEq needle []
  | c :: t => charsPrefixEq needle (c :: t) || charsContainSeq needle t

/-- Python `needle in hay` on strings: substring containment. -/
def strContainsSub (hay needle : String) : Bool :=
  charsContainSeq needle.data hay.data

/-- `get_mentions(limit)`: filter the chronological chat for messages
whose text contains the literal substring `@{claude_name}`. -/
def get_mentions (ensureOk : Bool) (resp : Option (Nat × List ChatMsg))
    (claude_name : Option String) : List ChatMsg :=
  if ensureOk then
    (get_chat ensureOk resp).filter
      (fun m => strContainsSub (m.message.getD "") (mentionTag claude_name))
  else []

/-- `has_new_mentions(since_id)`: a falsy `since_id` returns all
mentions; otherwise collect mentions from the front of the list returned
by `get_mentions` until one whose `id` equals `since_id` is hit. -/
def has_new_mentions (ensureOk : Bool) (resp : Option (Nat × List ChatMsg))
    (claude_name : Option String) (since_id : Option String) :
    List ChatMsg :=
  let mentions := get_mentions ensureOk resp claude_name
  if strTruthy since_id then
    mentions.takeWhile (fun m => !(m.id == since_id))
  else mentions

/-- A task row as the Python code reads it from the JSON response. -/
structure TaskRec where
  id : Option String
  status : Option String
  assigned_to : Option String
deriving DecidableEq

/-- `get_tasks(status)`: the status filter is part of the query and is
applied by the backend, so the response is already filtered; a 200
response is returned as-is, anything else (or a transport exception)
yields `[]`. -/
def get_tasks (ensureOk : Bool) (resp : Option (Nat × List TaskRec)) :
    List TaskRec :=
  if ensureOk then
    match resp with
    | some (status, ts) => if status == 200 then ts else []
    | none => []
  else []

/-- Python `x == True` on a decoded JSON body (`1 == True` in Python). -/
def pyEqTrue : JVal → Bool
  | JVal.jbool b => b
  | JVal.num n => n == 1
  | _ => false

/-- The result dict of `heartbeat`. -/
structure HbResult where
  ok : Bool
  mentions : Nat
  mention_projects : List String
deriving DecidableEq

/-- `set(...)` of the truthy `project_slug` values of the mentions, as a
duplicate-free list in first-occurrence order. -/
def distinctProjects (ms : List ChatMsg) : List String :=
  (ms.filterMap (fun m => if strTruthy m.project_slug then m.project_slug else none)).foldl
    (fun acc s => if s ∈ acc then acc else acc ++ [s]) []

/-- `heartbeat(status, working_on, check_mentions)`: `ok` is set from the
presence RPC alone (a transport exception, modelled as `presenceResp =
none`, is caught and leaves `ok = false`); the `working_on` patch is a
remote side effect that does not touch the result.  The optional mention
scan runs inside its own `try` whose `except` clause discards the error,
so `scan = Except.error ()` leaves the result as the presence half built
it; a successful non-empty scan folds in the count and project set. -/
def heartbeat (ensureOk : Bool) (presenceResp : Option (Nat × JVal))
    (check_mentions : Bool) (scan : Except Unit (List ChatMsg)) : HbResult :=
  if ensureOk then
    let ok := match presenceResp with
      | some (st, body) => st == 200 && pyEqTrue body
      | none => false
    let r1 : HbResult := ⟨ok, 0, []⟩
    if check_mentions then
      match scan with
      | Except.ok ms =>
          if ms.isEmpty then r1 else ⟨ok, ms.length, distinctProjects ms⟩
      | Except.error _ => r1
    else r1
  else ⟨false, 0, []⟩

/-- The result dict of `checkpoint`. -/
structure CpResult where
  passed : Bool
  mentions : Nat
  tasks : Nat
  blockers : List String
deriving DecidableEq

/-- What a raised Python exception carries: `RuntimeError(msg)` carries a
single message string; an exception constructed from the blocker list
itself would carry the list. -/
inductive ExcPayload where
  | msg : String → ExcPayload
  | strList : List String → ExcPayload
deriving DecidableEq

/-- The blocker entry `f"{n} unread mentions"`. -/
def mentionBlocker (n : Nat) : String := toString n ++ " unread mentions"

/-- The blocker entry `f"{n} pending tasks"`. -/
def taskBlocker (n : Nat) : String := toString n ++ " pending tasks"

/-- The message of the hard-checkpoint `RuntimeError`, rendered exactly
as the f-string renders it (the blocker list via Python `repr`). -/
def hardCheckpointMsg (name : String) (blockers : List String) : String :=
  "Hard checkpoint " ++ pyReprStr name ++ " failed: " ++ pyReprStrList blockers

/-- The result dict built by the connected path of `checkpoint` (its two
check blocks): the mention check and then the task check each append a
blocker and clear `passed` when their list is non-empty; both enabled
checks always run. -/
def checkpointCore (chatResp : Option (Nat × List ChatMsg))
    (tasksResp : Option (Nat × List TaskRec)) (claude_name : Option String)
    (check_mentions check_tasks : Bool) : CpResult :=
  let r1 : CpResult :=
    if check_mentions then
      let ms := get_mentions true chatResp claude_name
      if ms.isEmpty then ⟨true, 0, 0, []⟩
      else ⟨false, ms.length, 0, [mentionBlocker ms.length]⟩
    else ⟨true, 0, 0, []⟩
  if check_tasks then
    let ts := (get_tasks true tasksResp).filter
      (fun t => t.assigned_to == claude_name)
    if ts.isEmpty then r1
    else ⟨false, r1.mentions, ts.length, r1.blockers ++ [taskBlocker ts.length]⟩
  else r1

/-- `checkpoint(name, hard, check_mentions, check_tasks)`: a failed
auto-connect returns the blocked result immediately (before the `hard`
branch is ever reached); otherwise the checks run, and a failed gate
raises `RuntimeError` when `hard` is set, else the result is returned. -/
def checkpoint (ensureOk : Bool) (chatResp : Option (Nat × List ChatMsg))
    (tasksResp : Option (Nat × List TaskRec)) (claude_name : Option String)
    (name : String) (hard check_mentions check_tasks : Bool) :
    Except ExcPayload CpResult :=
  if ensureOk then
    let r2 := checkpointCore chatResp tasksResp claude_name check_mentions check_tasks
    if !r2.passed && hard then
      Except.error (ExcPayload.msg (hardCheckpointMsg name r2.blockers))
    else Except.ok r2
  else Except.ok ⟨false, 0, 0, ["Not connected"]⟩

/-- Replacing a key by the value it already holds is the identity. -/
theorem objSet_of_objGet : ∀ (d : JObj) (k : String) (v : JVal),
    objGet d k = some v → objSet d k v = d
  | [], k, v, h => by simp [objGet] at h
  | (k1, w) :: tl, k, v, h => by
      by_cases hk : k1 == k
      · have hk' : k1 = k := by simpa using hk
        simp only [objGet, hk, if_pos] at h
        have hw : w = v := by simpa using h
        simp only [objSet, hk, if_pos]
        simp [hk', hw]
      · simp only [objGet, hk, Bool.false_eq_true, if_false] at h
        simp [objSet, hk, objSet_of_objGet tl k v h]

/-- Reading back the key just written. -/
theorem objGet_objSet : ∀ (d : JObj) (k : String) (v : JVal),
    objGet (objSet d k v) k = some v
  | [], k, v => by simp [objGet, objSet]
  | (k1, w) :: tl, k, v => by
      by_cases hk : k1 == k
      · simp [objSet, objGet, hk]
      · simp [objSet, objGet, hk, objGet_objSet tl k v]

/-- A one-key patch whose value is an array is a plain key replacement. -/
theorem mergeSettings_single (d : JObj) (k : String) (xs : List JVal) :
    mergeSettings d [(k, JVal.arr xs)] = objSet d k (JVal.arr xs) := rfl

/-- Writing back the folder state already present is the identity. -/
theorem fsUpdate_of_eq (fs : FsState) (k : String) (v : BotFolder)
    (h : fs k = some v) : fsUpdate fs k v = fs := by
  funext x
  by_cases hx : x == k
  · have hx' : x = k := by simpa using hx
    simp [fsUpdate, hx, hx', h]
  · simp [fsUpdate, hx]

/-- Reading back the folder just written. -/
theorem fsUpdate_apply (fs : FsState) (k : String) (v : BotFolder) :
    fsUpdate fs k v k = some v := by simp [fsUpdate]

/-- The code's composed table lookup equals the spec-side rank. -/
theorem rank_through_tables (s : String) :
    roleHierarchyGet (botRolesGet (pyUpper s)) = specRank (specRoleOf s) := by
  unfold botRolesGet specRoleOf
  split_ifs <;> rfl

/-- C5: `can_manage(m, t)` is true iff the integer rank of m's role is
strictly greater than the rank of t's role under the fixed order
supervisor > manager > worker > grunt > bot; equal ranks always yield
false; a name not in the role table has the lowest rank (bot, 0). -/
theorem can_manage_rank_iff (m t : String) :
    (can_manage_bot m t = true ↔
      specRank (specRoleOf t) < specRank (specRoleOf m))
    ∧ (specRank (specRoleOf m) = specRank (specRoleOf t) →
        can_manage_bot m t = false)
    ∧ (pyUpper m ≠ "BLACK" → pyUpper m ≠ "INTOLERANT" →
        pyUpper m ≠ "OLLAMA" → pyUpper m ≠ "TKINTER" →
        specRank (specRoleOf m) = 0
        ∧ roleHierarchyGet (botRolesGet (pyUpper m)) = 0) := by
  refine ⟨?_, ?_, ?_⟩
  · unfold can_manage_bot
    rw [rank_through_tables m, rank_through_tables t]
    exact decide_eq_true_iff
  · intro h
    unfold can_manage_bot
    rw [rank_through_tables m, rank_through_tables t, h]
    simp
  · intro h1 h2 h3 h4
    have hrole : specRoleOf m = SpecRole.bot := by
      simp [specRoleOf, h1, h2, h3, h4]
    refine ⟨by rw [hrole]; rfl, ?_⟩
    rw [rank_through_tables m, hrole]; rfl

/-- Witness for C5 at concrete names: equal rank denies, higher rank
grants, an unknown name ranks as 0 and is outranked by a grunt. -/
theorem can_manage_rank_iff_witness :
    can_manage_bot "BLACK" "BLACK" = false
    ∧ can_manage_bot "BLACK" "OLLAMA" = true
    ∧ specRank (specRoleOf "stranger") = 0 := by
  refine ⟨(can_manage_rank_iff "BLACK" "BLACK").2.1 rfl,
          (can_manage_rank_iff "BLACK" "OLLAMA").1.mpr (by decide),
          ((can_manage_rank_iff "stranger" "stranger").2.2 (by decide)
            (by decide) (by decide) (by decide)).1⟩

/-- C7: a settings write with a non-empty `manager_name` that fails
`can_manage` returns false and leaves the filesystem — in particular the
target's persisted settings document — exactly unchanged; the function is
total, so no exception escapes. -/
theorem settings_write_denied_no_mutation (fs : FsState) (b : String)
    (patch : JObj) (m : String) (hm : m ≠ "")
    (hcm : can_manage_bot m b = false) :
    set_bot_settings fs b patch (some m) = (fs, false)
    ∧ get_bot_settings ((set_bot_settings fs b patch (some m)).1) b
        = get_bot_settings fs b := by
  have h1 : set_bot_settings fs b patch (some m) = (fs, false) := by
    simp [set_bot_settings, strTruthy, hm, hcm]
  exact ⟨h1, by rw [h1]⟩

/-- Witness for C7: the grunt OLLAMA cannot patch the supervisor BLACK,
and reading BLACK's document before and after the rejected write agrees. -/
theorem settings_write_denied_no_mutation_witness :
    set_bot_settings (fun _ => some (BotFolder.settings [("x", JVal.num 1)]))
        "BLACK" [("x", JVal.num 2)] (some "OLLAMA")
      = ((fun _ => some (BotFolder.settings [("x", JVal.num 1)]) : FsState), false) :=
  (settings_write_denied_no_mutation
    (fun _ => some (BotFolder.settings [("x", JVal.num 1)]))
    "BLACK" [("x", JVal.num 2)] "OLLAMA" (by decide) (by decide)).1

/-- Evaluation of `add_bot_rule` when the target document exists and its
`rules` entry is an array. -/
theorem add_bot_rule_step (fs : FsState) (b r : String) (mgr : Option String)
    (d : JObj) (rs : List JVal)
    (h1 : fs (pyUpper b) = some (BotFolder.settings d))
    (hpass : (strTruthy mgr && !(can_manage_bot (mgr.getD "") b)) = false)
    (h2 : objGet d "rules" = some (JVal.arr rs)) :
    add_bot_rule fs b r mgr =
      some (fsUpdate fs (pyUpper b) (BotFolder.settings (objSet d "rules"
        (JVal.arr (if rs.any (jIsStr r) then rs else rs ++ [JVal.str r])))), true) := by
  have hget : (get_bot_settings fs b).getD [] = d := by
    simp [get_bot_settings, h1]
  simp only [add_bot_rule, hget, h2]
  simp only [set_bot_settings, hpass, Bool.false_eq_true, if_false, h1,
    mergeSettings_single]

/-- Evaluation of `add_bot_rule` when the target document exists and has
no `rules` entry. -/
theorem add_bot_rule_step_none (fs : FsState) (b r : String)
    (mgr : Option String) (d : JObj)
    (h1 : fs (pyUpper b) = some (BotFolder.settings d))
    (hpass : (strTruthy mgr && !(can_manage_bot (mgr.getD "") b)) = false)
    (h2 : objGet d "rules" = none) :
    add_bot_rule fs b r mgr =
      some (fsUpdate fs (pyUpper b) (BotFolder.settings (objSet d "rules"
        (JVal.arr [JVal.str r]))), true) := by
  have hget : (get_bot_settings fs b).getD [] = d := by
    simp [get_bot_settings, h1]
  simp only [add_bot_rule, hget, h2]
  simp only [set_bot_settings, hpass, Bool.false_eq_true, if_false, h1,
    mergeSettings_single]

/-- `add_bot_rule` of a rule already present leaves the filesystem
untouched and reports success. -/
theorem add_bot_rule_noop (fs : FsState) (b r : String) (mgr : Option String)
    (d : JObj) (rs : List JVal)
    (h1 : fs (pyUpper b) = some (BotFolder.settings d))
    (hpass : (strTruthy mgr && !(can_manage_bot (mgr.getD "") b)) = false)
    (h2 : objGet d "rules" = some (JVal.arr rs))
    (h3 : rs.any (jIsStr r) = true) :
    add_bot_rule fs b r mgr = some (fs, true) := by
  rw [add_bot_rule_step fs b r mgr d rs h1 hpass h2]
  simp [h3, objSet_of_objGet d "rules" _ h2, fsUpdate_of_eq fs _ _ h1]

/-- C8: `add_rule` is idempotent.  On a document whose `rules` entry is
an array already containing the rule, the call succeeds without changing
the persisted state; and starting from any document whose `rules` entry
is absent or an array, two successive calls with the same rule produce
exactly the state the first call produced (one entry, no duplicate). -/
theorem add_rule_idempotent (fs : FsState) (b r : String) (mgr : Option String)
    (d : JObj) (h1 : fs (pyUpper b) = some (BotFolder.settings d))
    (hpass : (strTruthy mgr && !(can_manage_bot (mgr.getD "") b)) = false) :
    (∀ rs, objGet d "rules" = some (JVal.arr rs) → rs.any (jIsStr r) = true →
        add_bot_rule fs b r mgr = some (fs, true))
    ∧ ((objGet d "rules" = none ∨ ∃ rs, objGet d "rules" = some (JVal.arr rs)) →
        ∃ fs₁, add_bot_rule fs b r mgr = some (fs₁, true)
          ∧ add_bot_rule fs₁ b r mgr = some (fs₁, true)) := by
  constructor
  · intro rs h2 h3
    exact add_bot_rule_noop fs b r mgr d rs h1 hpass h2 h3
  · intro hcase
    rcases hcase with h2 | ⟨rs, h2⟩
    · refine ⟨fsUpdate fs (pyUpper b)
          (BotFolder.settings (objSet d "rules" (JVal.arr [JVal.str r]))),
        add_bot_rule_step_none fs b r mgr d h1 hpass h2, ?_⟩
      exact add_bot_rule_noop _ b r mgr _ [JVal.str r]
        (fsUpdate_apply fs _ _) hpass (objGet_objSet d "rules" _)
        (by simp [jIsStr])
    · by_cases hin : rs.any (jIsStr r) = true
      · exact ⟨fs, add_bot_rule_noop fs b r mgr d rs h1 hpass h2 hin,
          add_bot_rule_noop fs b r mgr d rs h1 hpass h2 hin⟩
      · have hin' : rs.any (jIsStr r) = false := by
          simpa using hin
        refine ⟨fsUpdate fs (pyUpper b)
            (BotFolder.settings (objSet d "rules" (JVal.arr (rs ++ [JVal.str r])))),
          ?_, ?_⟩
        · rw [add_bot_rule_step fs b r mgr d rs h1 hpass h2]
          simp [hin']
        · exact add_bot_rule_noop _ b r mgr _ (rs ++ [JVal.str r])
            (fsUpdate_apply fs _ _) hpass (objGet_objSet d "rules" _)
            (by simp [List.any_append, jIsStr])

/-- Witness for C8: re-adding `"r1"` to a document whose rules array is
already `["r1"]` succeeds and leaves the filesystem unchanged. -/
theorem add_rule_idempotent_witness :
    add_bot_rule
        (fun k => if k == "OLLAMA"
          then some (BotFolder.settings [("rules", JVal.arr [JVal.str "r1"])])
          else none)
        "OLLAMA" "r1" none
      = some ((fun k => if k == "OLLAMA"
          then some (BotFolder.settings [("rules", JVal.arr [JVal.str "r1"])])
          else none : FsState), true) :=
  (add_rule_idempotent
    (fun k => if k == "OLLAMA"
      then some (BotFolder.settings [("rules", JVal.arr [JVal.str "r1"])])
      else none)
    "OLLAMA" "r1" none [("rules", JVal.arr [JVal.str "r1"])]
    rfl rfl).1 [JVal.str "r1"] rfl rfl

/-- With `hard = false` the connected checkpoint always returns its
computed result. -/
theorem checkpoint_soft (c : Option (Nat × List ChatMsg))
    (t : Option (Nat × List TaskRec)) (cn : Option String) (nm : String)
    (cm ct : Bool) :
    checkpoint true c t cn nm false cm ct =
      Except.ok (checkpointCore c t cn cm ct) := by
  simp [checkpoint]

/-- C2: a failed auto-connect yields `passed = false` with blockers
exactly `["Not connected"]` and neither check runs; otherwise, with the
mention list `M` and the pending tasks `K` assigned to the current
identity: a non-empty `M` fails the gate with `mentions = M.length` and
one blocker; a non-empty `K` (with the task check enabled) fails it with
`tasks = K.length` and a further independent blocker; both enabled
checks run, blockers accumulate; and with both lists empty the gate
passes with no blockers. -/
theorem checkpoint_gate_c2 (c : Option (Nat × List ChatMsg))
    (t : Option (Nat × List TaskRec)) (cn : Option String) (nm : String) :
    (∀ hard cm ct, checkpoint false c t cn nm hard cm ct =
        Except.ok ⟨false, 0, 0, ["Not connected"]⟩)
    ∧ ∀ M K, get_mentions true c cn = M →
        (get_tasks true t).filter (fun x => x.assigned_to == cn) = K →
        ((M ≠ [] → checkpoint true c t cn nm false true false =
            Except.ok ⟨false, M.length, 0, [mentionBlocker M.length]⟩)
         ∧ (M ≠ [] → K ≠ [] → checkpoint true c t cn nm false true true =
            Except.ok ⟨false, M.length, K.length,
              [mentionBlocker M.length, taskBlocker K.length]⟩)
         ∧ (M = [] → K ≠ [] → checkpoint true c t cn nm false true true =
            Except.ok ⟨false, 0, K.length, [taskBlocker K.length]⟩)
         ∧ (M = [] → K = [] → checkpoint true c t cn nm false true true =
            Except.ok ⟨true, 0, 0, []⟩)) := by
  constructor
  · intro hard cm ct; rfl
  · intro M K hM hK
    refine ⟨?_, ?_, ?_, ?_⟩
    · intro hm
      obtain ⟨a, M1, rfl⟩ := List.exists_cons_of_ne_nil hm
      rw [checkpoint_soft]
      simp [checkpointCore, hM]
    · intro hm hk
      obtain ⟨a, M1, rfl⟩ := List.exists_cons_of_ne_nil hm
      obtain ⟨b1, K1, rfl⟩ := List.exists_cons_of_ne_nil hk
      rw [checkpoint_soft]
      simp [checkpointCore, hM, hK]
    · intro hm hk
      subst hm
      obtain ⟨b1, K1, rfl⟩ := List.exists_cons_of_ne_nil hk
      rw [checkpoint_soft]
      simp [checkpointCore, hM, hK]
    · intro hm hk
      subst hm; subst hk
      rw [checkpoint_soft]
      simp [checkpointCore, hM, hK]

/-- Witness for C2: two pending mentions with the task check disabled
give `passed = false`, `mentions = 2`, `tasks = 0` and exactly one
blocker. -/
theorem checkpoint_gate_c2_witness :
    checkpoint true
        (some (200, [⟨some "2", some "@B two", none⟩, ⟨some "1", some "@B one", none⟩]))
        none (some "B") "cp" false true false =
      Except.ok ⟨false, 2, 0, [mentionBlocker 2]⟩ :=
  ((checkpoint_gate_c2
      (some (200, [⟨some "2", some "@B two", none⟩, ⟨some "1", some "@B one", none⟩]))
      none (some "B") "cp").2
    [⟨some "1", some "@B one", none⟩, ⟨some "2", some "@B two", none⟩] []
    (by decide) (by decide)).1 (by decide)

/-- C3 counterexample: (i) with `hard = true` and a disconnected session
the gate fails (blockers `["Not connected"]`) yet returns normally
instead of raising; (ii) when the connected gate does raise, the payload
it carries is a single rendered message string, not the structured
blocker list. -/
theorem checkpoint_hard_counterexample :
    checkpoint false none none none "cp" true true true =
      Except.ok ⟨false, 0, 0, ["Not connected"]⟩
    ∧ checkpoint true (some (200, [⟨some "1", some "@B x", none⟩])) none
        (some "B") "cp" true true false =
      Except.error (ExcPayload.msg (hardCheckpointMsg "cp" [mentionBlocker 1]))
    ∧ ExcPayload.msg (hardCheckpointMsg "cp" [mentionBlocker 1]) ≠
        ExcPayload.strList [mentionBlocker 1] := by
  refine ⟨rfl, rfl, by decide⟩

/-- C3 amended: when the session is connected, `hard = true` and a
failing gate raise a `RuntimeError` whose payload is the message string
embedding the checkpoint name and the rendered blocker list (the same
blockers the non-hard call returns), and a passing gate returns the same
result the non-hard call returns; when the session is not connected the
blocked result is returned without raising even with `hard = true`. -/
theorem checkpoint_hard_amended (c : Option (Nat × List ChatMsg))
    (t : Option (Nat × List TaskRec)) (cn : Option String) (nm : String)
    (cm ct : Bool) :
    (∀ r, checkpoint true c t cn nm false cm ct = Except.ok r →
        (r.passed = false → checkpoint true c t cn nm true cm ct =
            Except.error (ExcPayload.msg (hardCheckpointMsg nm r.blockers)))
        ∧ (r.passed = true → checkpoint true c t cn nm true cm ct =
            Except.ok r))
    ∧ (∀ hard, checkpoint false c t cn nm hard cm ct =
        Except.ok ⟨false, 0, 0, ["Not connected"]⟩) := by
  constructor
  · intro r h
    rw [checkpoint_soft] at h
    injection h with h1
    subst h1
    constructor
    · intro hp
      simp [checkpoint, hp]
    · intro hp
      simp [checkpoint, hp]
  · intro hard; rfl

/-- Witness for C3 (amended): one pending mention under a hard gate
raises with the rendered message carrying that blocker. -/
theorem checkpoint_hard_amended_witness :
    checkpoint true (some (200, [⟨some "5", some "@B hi", none⟩])) none
        (some "B") "gate" true true false =
      Except.error (ExcPayload.msg (hardCheckpointMsg "gate" [mentionBlocker 1])) :=
  (((checkpoint_hard_amended (some (200, [⟨some "5", some "@B hi", none⟩]))
      none (some "B") "gate" true false).1
    ⟨false, 1, 0, [mentionBlocker 1]⟩ rfl).1 rfl)

/-- C10 (implicit): a transport failure or non-200 status during the
chat fetch makes `get_chat` (and hence `get_mentions`) return the empty
list, so the connected checkpoint passes with `mentions = 0` and no
blocker — indistinguishable from having no mentions. -/
theorem checkpoint_transport_failure_passes (c : Option (Nat × List ChatMsg))
    (t : Option (Nat × List TaskRec)) (cn : Option String) (nm : String) :
    (get_chat true none = ([] : List ChatMsg)
      ∧ ∀ st msgs, st ≠ 200 → get_chat true (some (st, msgs)) = [])
    ∧ (get_chat true c = [] →
        get_mentions true c cn = []
        ∧ checkpoint true c t cn nm false true false =
            Except.ok ⟨true, 0, 0, []⟩) := by
  constructor
  · exact ⟨rfl, fun st msgs h => by simp [get_chat, h]⟩
  · intro h
    have hm : get_mentions true c cn = [] := by simp [get_mentions, h]
    refine ⟨hm, ?_⟩
    rw [checkpoint_soft]
    simp [checkpointCore, hm]

/-- Witness for C10: an outright transport failure (`none`). -/
theorem checkpoint_transport_failure_passes_witness :
    get_mentions true none (some "B") = []
    ∧ checkpoint true none none (some "B") "cp" false true false =
        Except.ok ⟨true, 0, 0, []⟩ :=
  (checkpoint_transport_failure_passes none none (some "B") "cp").2 rfl

/-- C1 (code bug): the backend delivers chat newest-first and `get_chat`
reverses it to oldest-first, so the collection loop of
`has_new_mentions` starts at the OLDEST mention and stops at `since_id`.
With `since_id` equal to the newest mention's id (`"2"`), the call
returns the OLDER mention `"1"` instead of the empty list that the
function's own docstring ("mentions newer than a given message ID") and
the spec promise. -/
theorem has_new_mentions_scans_oldest_first :
    get_mentions true
        (some (200, [⟨some "2", some "@B two", none⟩, ⟨some "1", some "@B one", none⟩]))
        (some "B")
      = [⟨some "1", some "@B one", none⟩, ⟨some "2", some "@B two", none⟩]
    ∧ has_new_mentions true
        (some (200, [⟨some "2", some "@B two", none⟩, ⟨some "1", some "@B one", none⟩]))
        (some "B") (some "2")
      = [⟨some "1", some "@B one", none⟩] :=
  ⟨rfl, rfl⟩

/-- C4 counterexample: a previously connected session stays
`connected = true` after a failed re-validation (HTTP 403) of a new key;
the call reports failure but does not reset the connected flag, so
"every other outcome leaves the session with connected=false" fails for
a connected prior state. -/
theorem connect_failed_revalidation_counterexample :
    (connect ⟨some "cc_old", some "T", some "U", some "B", "claude-colab", true⟩
        (some "cc_bad") none (fun _ => none) KeystoreState.absent
        (some (403, []))).2 = false
    ∧ (connect ⟨some "cc_old", some "T", some "U", some "B", "claude-colab", true⟩
        (some "cc_bad") none (fun _ => none) KeystoreState.absent
        (some (403, []))).1.connected = true :=
  ⟨rfl, rfl⟩

/-- C4 amended: a 200 validation response with a non-empty result
populates `team_id`, `user_id` and the identity name, sets
`connected = true` and returns true; every other outcome (non-200 status,
empty result, transport failure — all mapped to `validateKey = none`, so
nothing is raised) returns false and leaves `connected` unchanged from
the prior state (hence still false when starting disconnected), as does
a falsy resolved credential. -/
theorem connect_outcomes (s : SessionState) (ak nm : Option String)
    (env : String → Option String) (ks : KeystoreState)
    (resp : Option (Nat × List ValRecord)) :
    (validateKey none = none
      ∧ (∀ st data, st ≠ 200 → validateKey (some (st, data)) = none)
      ∧ ∀ st, validateKey (some (st, ([] : List ValRecord))) = none)
    ∧ (∀ r, strTruthy (resolveApiKey s.api_key ak nm env ks) = true →
        validateKey resp = some r →
        connect s ak nm env ks resp =
          (⟨resolveApiKey s.api_key ak nm env ks, r.team_id, r.user_id,
            r.claude_name, s.project_slug, true⟩, true))
    ∧ (strTruthy (resolveApiKey s.api_key ak nm env ks) = true →
        validateKey resp = none →
        (connect s ak nm env ks resp).2 = false
        ∧ (connect s ak nm env ks resp).1.connected = s.connected)
    ∧ (strTruthy (resolveApiKey s.api_key ak nm env ks) = false →
        (connect s ak nm env ks resp).2 = false
        ∧ (connect s ak nm env ks resp).1.connected = s.connected) := by
  refine ⟨⟨rfl, ?_, ?_⟩, ?_, ?_, ?_⟩
  · intro st data h
    simp [validateKey, h]
  · intro st
    by_cases h : st = 200 <;> simp [validateKey, h]
  · intro r htruthy hval
    simp [connect, htruthy, hval]
  · intro htruthy hval
    simp [connect, htruthy, hval]
  · intro htruthy
    simp [connect, htruthy]

/-- Witness for C4 (amended): from the fresh disconnected state, an
explicit key validated by a 200 response with one row connects and
populates the identity. -/
theorem connect_outcomes_witness :
    connect ⟨none, none, none, none, "claude-colab", false⟩ (some "cc_k") none
        (fun _ => none) KeystoreState.absent
        (some (200, [⟨some "T", some "U", some "B"⟩])) =
      (⟨some "cc_k", some "T", some "U", some "B", "claude-colab", true⟩, true) :=
  (connect_outcomes ⟨none, none, none, none, "claude-colab", false⟩
      (some "cc_k") none (fun _ => none) KeystoreState.absent
      (some (200, [⟨some "T", some "U", some "B"⟩]))).2.1
    ⟨some "T", some "U", some "B"⟩ rfl rfl

/-- C6: credential resolution inside `connect`, first hit wins: a truthy
explicit argument; else the identity-scoped environment variable; else
the generic environment variable; else the keystore; and with all four
absent the resolution is empty and `connect` fails without calling
validation. -/
theorem key_resolution_precedence (prior : Option String)
    (env : String → Option String) (ks : KeystoreState) (n : String)
    (hn : n ≠ "") :
    (∀ k, k ≠ "" → resolveApiKey prior (some k) (some n) env ks = some k)
    ∧ (∀ k, env ("CLAUDE_COLAB_KEY_" ++ pyUpper n) = some k → k ≠ "" →
        resolveApiKey prior none (some n) env ks = some k)
    ∧ (∀ k, env ("CLAUDE_COLAB_KEY_" ++ pyUpper n) = none →
        env "CLAUDE_COLAB_KEY" = some k → k ≠ "" →
        resolveApiKey prior none (some n) env ks = some k)
    ∧ (∀ k, env ("CLAUDE_COLAB_KEY_" ++ pyUpper n) = none →
        env "CLAUDE_COLAB_KEY" = none → vend_key ks n = some k →
        resolveApiKey prior none (some n) env ks = some k)
    ∧ (env ("CLAUDE_COLAB_KEY_" ++ pyUpper n) = none →
        env "CLAUDE_COLAB_KEY" = none → vend_key ks n = none →
        resolveApiKey prior none (some n) env ks = none
        ∧ ∀ (s : SessionState) resp,
            connect s none (some n) env ks resp =
              (⟨none, s.team_id, s.user_id, s.claude_name, s.project_slug,
                s.connected⟩, false)) := by
  refine ⟨?_, ?_, ?_, ?_, ?_⟩
  · intro k hk
    simp [resolveApiKey, strTruthy, hk]
  · intro k h hk
    simp [resolveApiKey, strTruthy, hn, h, hk]
  · intro k h1 h2 hk
    simp [resolveApiKey, strTruthy, hn, h1, h2, hk]
  · intro k h1 h2 h3
    simp [resolveApiKey, strTruthy, hn, h1, h2, h3]
  · intro h1 h2 h3
    have hres : ∀ p, resolveApiKey p none (some n) env ks = none := by
      intro p
      simp [resolveApiKey, strTruthy, hn, h1, h2, h3]
    refine ⟨hres prior, ?_⟩
    intro s resp
    simp [connect, hres, strTruthy]

/-- Witness for C6: with all four sources populated differently, the
explicit argument wins. -/
theorem key_resolution_precedence_witness :
    resolveApiKey none (some "cc_explicit") (some "BLACK")
        (fun k => if k == "CLAUDE_COLAB_KEY_BLACK" then some "cc_env_id"
          else if k == "CLAUDE_COLAB_KEY" then some "cc_env_gen" else none)
        (KeystoreState.stocked [("BLACK", "cc_store")])
      = some "cc_explicit" :=
  (key_resolution_precedence none
      (fun k => if k == "CLAUDE_COLAB_KEY_BLACK" then some "cc_env_id"
        else if k == "CLAUDE_COLAB_KEY" then some "cc_env_gen" else none)
      (KeystoreState.stocked [("BLACK", "cc_store")]) "BLACK"
      (by decide)).1 "cc_explicit" (by decide)

/-- C9: on a connected session with `check_mentions = true`, a
successful presence emission (HTTP 200, body `true`) makes `ok = true`
whatever the mention scan does; `ok` never depends on the scan outcome
at all; and the mention count and distinct project set are folded into
the result only when the scan succeeds (a failed scan leaves them at
`0` / `[]`). -/
theorem heartbeat_presence_mentions_independent (pr : Option (Nat × JVal)) :
    (∀ scan, (heartbeat true (some (200, JVal.jbool true)) true scan).ok = true)
    ∧ (∀ s1 s2 : Except Unit (List ChatMsg),
        (heartbeat true pr true s1).ok = (heartbeat true pr true s2).ok)
    ∧ ((heartbeat true pr true (Except.error ())).mentions = 0
        ∧ (heartbeat true pr true (Except.error ())).mention_projects = [])
    ∧ (∀ ms, (heartbeat true pr true (Except.ok ms)).mentions = ms.length
        ∧ (heartbeat true pr true (Except.ok ms)).mention_projects =
            distinctProjects ms) := by
  have hok : ∀ (q : Option (Nat × JVal)) (sc : Except Unit (List ChatMsg)),
      (heartbeat true q true sc).ok =
        (match q with
          | some (st, body) => st == 200 && pyEqTrue body
          | none => false) := by
    intro q sc
    cases sc with
    | ok ms => cases ms <;> simp [heartbeat]
    | error e => simp [heartbeat]
  refine ⟨?_, ?_, ?_, ?_⟩
  · intro scan
    rw [hok]
    simp [pyEqTrue]
  · intro s1 s2
    rw [hok pr s1, hok pr s2]
  · constructor <;> simp [heartbeat]
  · intro ms
    constructor <;> cases ms <;> simp [heartbeat, distinctProjects]
